import Mathlib

/-
Verification development for the Eigenrausch generative-noise repository.

The repository builds three pyo signal graphs (BASE, MICRO, PULSE), each a
fixed topology of pink-noise sources, sine oscillators, randomly
interpolated modulators (pyo Randi), Butterworth band-pass filters and
gain nodes, and renders them either live or to a WAV file.

Embedding conventions:
- Python float parameters are embedded as rationals; the dB parameters and
  the literals of the variant catalogs are exact decimals, so nothing is
  lost by this choice for the structural claims below.
- A signal graph is embedded as a syntax tree (Sig).  A call to the config
  helper db_to_amp on a dB value d is kept symbolic as the node
  Sig.dbToAmp d, so the gain-staging structure of the graph stays visible.
- Stateful random objects (PinkNoise, Randi) carry a numeric id recording
  their creation order, mirroring the fact that each Python constructor
  call creates a fresh independent object.
- Python exceptions raised during construction (ZeroDivisionError from
  1.0 / period) are embedded as Except String.
-/

-- =========================================================
-- eigenrausch_config.py
-- =========================================================

/-- SAMPLE_RATE from eigenrausch_config.py. -/
def SAMPLE_RATE : ℕ := 48000

/-- DURATION_MIN from eigenrausch_config.py (0.05 minutes). -/
def DURATION_MIN : ℚ := 5/100

/-- DURATION_SEC from eigenrausch_config.py. -/
def DURATION_SEC : ℚ := DURATION_MIN * 60

/-- MASTER_OUT_DB from eigenrausch_config.py. -/
def MASTER_OUT_DB : ℚ := -10

/-- BASE_OUT_DB from eigenrausch_config.py. -/
def BASE_OUT_DB : ℚ := MASTER_OUT_DB

/-- MICRO_OUT_DB from eigenrausch_config.py. -/
def MICRO_OUT_DB : ℚ := MASTER_OUT_DB

/-- PULSE_OUT_DB from eigenrausch_config.py. -/
def PULSE_OUT_DB : ℚ := MASTER_OUT_DB

/-- BASE_TRIM_DB from eigenrausch_config.py. -/
def BASE_TRIM_DB : ℚ := 20

/-- MICRO_TRIM_DB from eigenrausch_config.py. -/
def MICRO_TRIM_DB : ℚ := 20

/-- PULSE_TRIM_DB from eigenrausch_config.py. -/
def PULSE_TRIM_DB : ℚ := 39

/-- db_to_amp from eigenrausch_config.py: convert dBFS to a linear
amplitude factor, 10 ** (db / 20). -/
noncomputable def db_to_amp (db : ℝ) : ℝ := (10 : ℝ) ^ (db / 20)

-- =========================================================
-- Signal-graph syntax trees
-- =========================================================

/-- Syntax tree of a pyo signal graph as built by the three layer
constructors.  Stateful random objects (pink, randi) carry the id of the
underlying object, counting creation order inside one layer instance.
A float produced by db_to_amp is kept symbolic as dbToAmp of the dB value
so the gain staging stays visible in the tree. -/
inductive Sig : Type where
  | const : ℚ → Sig
  | dbToAmp : ℚ → Sig
  | pink : ℕ → Sig
  | sine : Sig → Sig → Sig
  | range : Sig → ℚ → ℚ → Sig
  | randi : ℚ → ℚ → Sig → ℕ → Sig
  | butBP : Sig → Sig → ℚ → Sig
  | add : Sig → Sig → Sig
  | mul : Sig → Sig → Sig
  | pow : Sig → ℕ → Sig
deriving DecidableEq

/-- Ids of the stateful random objects (PinkNoise, Randi) occurring in a
signal tree, used to state that tone branches share no modulator state. -/
def randIds : Sig → List ℕ
  | .const _ => []
  | .dbToAmp _ => []
  | .pink i => [i]
  | .sine f m => randIds f ++ randIds m
  | .range s _ _ => randIds s
  | .randi _ _ f i => i :: randIds f
  | .butBP x f _ => randIds x ++ randIds f
  | .add a b => randIds a ++ randIds b
  | .mul a b => randIds a ++ randIds b
  | .pow a _ => randIds a

/-- Arguments of all db_to_amp gain nodes occurring in a signal tree,
used to state which dB offsets are applied inside a premix. -/
def dbArgs : Sig → List ℚ
  | .const _ => []
  | .dbToAmp d => [d]
  | .pink _ => []
  | .sine f m => dbArgs f ++ dbArgs m
  | .range s _ _ => dbArgs s
  | .randi _ _ f _ => dbArgs f
  | .butBP x f _ => dbArgs x ++ dbArgs f
  | .add a b => dbArgs a ++ dbArgs b
  | .mul a b => dbArgs a ++ dbArgs b
  | .pow a _ => dbArgs a

/-- Python float division a / b: raises ZeroDivisionError when b is zero,
otherwise returns the quotient. -/
def pydiv (a b : ℚ) : Except String ℚ :=
  if b = 0 then .error "ZeroDivisionError" else .ok (a / b)

-- =========================================================
-- Variant parameter records and catalogs
-- =========================================================

/-- Parameters of one BASE variant (eigenrausch_base_layer.py). -/
structure BaseParams where
  center_freq_hz : ℚ
  drift_depth_hz : ℚ
  drift_period_sec : ℚ
  amp_lfo_depth : ℚ
  amp_lfo_period_sec : ℚ
deriving DecidableEq

/-- Parameters of one MICRO variant (eigenrausch_micro_layer.py). -/
structure MicroParams where
  freq_min_hz : ℚ
  freq_max_hz : ℚ
  num_tones : ℕ
  amp_lfo_freq_min : ℚ
  amp_lfo_freq_max : ℚ
  noise_db : ℚ
  tone_db : ℚ
deriving DecidableEq

/-- Parameters of one PULSE variant (eigenrausch_pulse_layer.py). -/
structure PulseParams where
  freq_min_hz : ℚ
  freq_max_hz : ℚ
  pulse_rate_min : ℚ
  pulse_rate_max : ℚ
  noise_db : ℚ
  pulse_db : ℚ
deriving DecidableEq

/-- BASE_VARIANTS catalog from eigenrausch_base_layer.py (the active,
uncommented definition). -/
def BASE_VARIANTS : List (String × BaseParams) :=
  [("BASE_A", ⟨2800, 1200, 45, 45/100, 30⟩),
   ("BASE_B", ⟨3000, 1800, 30, 55/100, 25⟩),
   ("BASE_C", ⟨1800, 900, 60, 35/100, 45⟩),
   ("BASE_D", ⟨2600, 2200, 20, 65/100, 20⟩)]

/-- MICRO_VARIANTS catalog from eigenrausch_micro_layer.py (the active,
uncommented definition). -/
def MICRO_VARIANTS : List (String × MicroParams) :=
  [("MICRO_A", ⟨6500, 8000, 8, 3/10, 12/10, -15, -1⟩),
   ("MICRO_B", ⟨5500, 7500, 10, 2/10, 1, -16, -1⟩),
   ("MICRO_C", ⟨4500, 6500, 8, 1/10, 6/10, -17, -1⟩),
   ("MICRO_D", ⟨3000, 5000, 6, 1/20, 35/100, -18, -1⟩)]

/-- PULSE_VARIANTS catalog from eigenrausch_pulse_layer.py (the active,
uncommented definition). -/
def PULSE_VARIANTS : List (String × PulseParams) :=
  [("PULSE_A", ⟨1500, 4500, 3/2, 4, -60, -10⟩),
   ("PULSE_B", ⟨2500, 6000, 2, 6, -58, -8⟩),
   ("PULSE_C", ⟨800, 3000, 1, 3, -55, -9⟩),
   ("PULSE_D", ⟨1200, 4000, 1/2, 3/2, -62, -12⟩),
   ("PULSE_CRACKLE", ⟨6000, 14000, 8, 20, -70, -18⟩)]

/-- Python dict lookup (name in CATALOG, CATALOG of name) over the ordered
association lists above. -/
def findVariant {α : Type} (cat : List (String × α)) (name : String) : Option α :=
  match cat with
  | [] => none
  | (k, v) :: rest => if name = k then some v else findVariant rest name

-- =========================================================
-- EigenBase (eigenrausch_base_layer.py, class EigenBase)
-- =========================================================

/-- Component state of one EigenBase instance, mirroring the attributes
set by EigenBase init. -/
structure EigenBase where
  noise : Sig
  freq_lfo : Sig
  filter : Sig
  amp_lfo : Sig
  out_sig : Sig
deriving DecidableEq

/-- Premix of the BASE layer, as bound to the local premix variable in
EigenBase init: filtered pink noise times the slow amplitude LFO.
Rational division is total, so the 1 / period frequencies are written
directly; mkEigenBase only reaches this expression when both periods are
nonzero, in which case the values agree with the Python divisions. -/
def basePremix (p : BaseParams) : Sig :=
  Sig.mul
    (Sig.butBP (Sig.pink 0)
      (Sig.range (Sig.sine (Sig.const (1 / p.drift_period_sec)) (Sig.const 1))
        (p.center_freq_hz - p.drift_depth_hz)
        (p.center_freq_hz + p.drift_depth_hz))
      2)
    (Sig.range (Sig.sine (Sig.const (1 / p.amp_lfo_period_sec)) (Sig.const 1))
      (1 - p.amp_lfo_depth)
      (1 + p.amp_lfo_depth))

/-- EigenBase init: pink noise, drift LFO (Sine at 1 / drift_period_sec
range-mapped around the center frequency), ButBP filter with q = 2,
amplitude LFO (Sine at 1 / amp_lfo_period_sec range-mapped around 1),
premix, and a single master gain db_to_amp (out_db + BASE_TRIM_DB)
applied at the very end.  The two Python divisions 1.0 / period raise
ZeroDivisionError exactly when the period is zero. -/
def mkEigenBase (p : BaseParams) (out_db : ℚ) : Except String EigenBase :=
  match pydiv 1 p.drift_period_sec with
  | .error e => .error e
  | .ok driftFreq =>
    match pydiv 1 p.amp_lfo_period_sec with
    | .error e => .error e
    | .ok ampFreq =>
      let noise := Sig.pink 0
      let freq_lfo := Sig.range (Sig.sine (Sig.const driftFreq) (Sig.const 1))
        (p.center_freq_hz - p.drift_depth_hz) (p.center_freq_hz + p.drift_depth_hz)
      let filter := Sig.butBP noise freq_lfo 2
      let amp_lfo := Sig.range (Sig.sine (Sig.const ampFreq) (Sig.const 1))
        (1 - p.amp_lfo_depth) (1 + p.amp_lfo_depth)
      let premix := Sig.mul filter amp_lfo
      let layer_amp := Sig.dbToAmp (out_db + BASE_TRIM_DB)
      .ok ⟨noise, freq_lfo, filter, amp_lfo, Sig.mul premix layer_amp⟩

-- =========================================================
-- EigenMicro (eigenrausch_micro_layer.py, class EigenMicro)
-- =========================================================

/-- Components of one micro-tone branch, mirroring the five objects
created per loop iteration in EigenMicro init. -/
structure MicroTone where
  freq_rate_lfo : Sig
  freq_lfo : Sig
  amp_rate_lfo : Sig
  amp_lfo : Sig
  tone : Sig
deriving DecidableEq

/-- One iteration of the tone loop in EigenMicro init.  Branch k creates
four fresh Randi objects (ids 1 + 4 k .. 4 + 4 k; id 0 is the pink-noise
bed): the frequency rate LFO in the fixed band 0.01 .. 0.1, the frequency
LFO between freq_min_hz and freq_max_hz at that rate, the amplitude rate
LFO between amp_lfo_freq_min and amp_lfo_freq_max, and the raw amplitude
LFO in 0 .. 1 at that rate.  The amplitude is squared and the sine tone
is scaled by shaped_amp times db_to_amp tone_db. -/
def mkMicroTone (p : MicroParams) (k : ℕ) : MicroTone :=
  let i := 1 + 4 * k
  let freq_rate_lfo := Sig.randi (1/100) (1/10) (Sig.const (1/20)) i
  let freq_lfo := Sig.randi p.freq_min_hz p.freq_max_hz freq_rate_lfo (i + 1)
  let amp_rate_lfo := Sig.randi p.amp_lfo_freq_min p.amp_lfo_freq_max (Sig.const (1/10)) (i + 2)
  let amp_lfo := Sig.randi 0 1 amp_rate_lfo (i + 3)
  let shaped_amp := Sig.pow amp_lfo 2
  let tone := Sig.sine freq_lfo (Sig.mul shaped_amp (Sig.dbToAmp p.tone_db))
  ⟨freq_rate_lfo, freq_lfo, amp_rate_lfo, amp_lfo, tone⟩

/-- Component state of one EigenMicro instance: the noise bed and the
per-tone component lists kept on the Python object, plus out_sig. -/
structure EigenMicro where
  noise : Sig
  tones : List MicroTone
  out_sig : Sig
deriving DecidableEq

/-- Premix of the MICRO layer, as bound to the local premix variable in
EigenMicro init: the noise bed (pink noise times db_to_amp noise_db)
plus the Python sum of the tone list, which folds add starting from the
integer 0. -/
def microPremix (p : MicroParams) : Sig :=
  Sig.add (Sig.mul (Sig.pink 0) (Sig.dbToAmp p.noise_db))
    (((List.range p.num_tones).map (fun k => (mkMicroTone p k).tone)).foldl Sig.add (Sig.const 0))

/-- EigenMicro init: noise bed, num_tones independent tone branches
(each with its own four fresh Randi objects), premix, and a single master
gain db_to_amp (out_db + MICRO_TRIM_DB) applied at the very end.  No
operation in the Python constructor can raise, so the result is always
ok. -/
def mkEigenMicro (p : MicroParams) (out_db : ℚ) : Except String EigenMicro :=
  let noise := Sig.mul (Sig.pink 0) (Sig.dbToAmp p.noise_db)
  let tones := (List.range p.num_tones).map (mkMicroTone p)
  let premix := microPremix p
  let layer_amp := Sig.dbToAmp (out_db + MICRO_TRIM_DB)
  .ok ⟨noise, tones, Sig.mul premix layer_amp⟩

-- =========================================================
-- EigenPulse (eigenrausch_pulse_layer.py, class EigenPulse)
-- =========================================================

/-- Component state of one EigenPulse instance, mirroring the attributes
set by EigenPulse init. -/
structure EigenPulse where
  noise_bed : Sig
  pulse_noise : Sig
  freq_lfo : Sig
  band : Sig
  pulse_rate : Sig
  amp_lfo : Sig
  out_sig : Sig
deriving DecidableEq

/-- Premix of the PULSE layer, as bound to the local premix variable in
EigenPulse init: the quiet noise bed plus the band-passed pulse noise
scaled by the cubed amplitude envelope and db_to_amp pulse_db. -/
def pulsePremix (p : PulseParams) : Sig :=
  Sig.add (Sig.mul (Sig.pink 0) (Sig.dbToAmp p.noise_db))
    (Sig.mul
      (Sig.mul
        (Sig.butBP (Sig.pink 1)
          (Sig.randi p.freq_min_hz p.freq_max_hz (Sig.const (1/20)) 2) (6/5))
        (Sig.pow (Sig.randi 0 1
          (Sig.randi p.pulse_rate_min p.pulse_rate_max (Sig.const (1/2)) 3) 4) 3))
      (Sig.dbToAmp p.pulse_db))

/-- EigenPulse init: quiet noise bed, raw pulse pink noise, drifting
band-pass center (Randi between freq_min_hz and freq_max_hz at 0.05 Hz),
ButBP with q = 1.2, pulse rate Randi between pulse_rate_min and
pulse_rate_max morphing at 0.5 Hz, amplitude Randi in 0 .. 1 at that
rate, cubed envelope, pulse gain db_to_amp pulse_db, premix, and the
single master gain db_to_amp (out_db + PULSE_TRIM_DB) at the very end.
No operation in the Python constructor can raise, so the result is
always ok.  Object ids in creation order: noise bed pink 0, pulse pink 1,
freq Randi 2, rate Randi 3, amplitude Randi 4. -/
def mkEigenPulse (p : PulseParams) (out_db : ℚ) : Except String EigenPulse :=
  let noise_bed := Sig.mul (Sig.pink 0) (Sig.dbToAmp p.noise_db)
  let pulse_noise := Sig.pink 1
  let freq_lfo := Sig.randi p.freq_min_hz p.freq_max_hz (Sig.const (1/20)) 2
  let band := Sig.butBP pulse_noise freq_lfo (6/5)
  let pulse_rate := Sig.randi p.pulse_rate_min p.pulse_rate_max (Sig.const (1/2)) 3
  let amp_lfo := Sig.randi 0 1 pulse_rate 4
  let premix := pulsePremix p
  let layer_amp := Sig.dbToAmp (out_db + PULSE_TRIM_DB)
  .ok ⟨noise_bed, pulse_noise, freq_lfo, band, pulse_rate, amp_lfo, Sig.mul premix layer_amp⟩

-- =========================================================
-- Preview and render graph construction paths
-- =========================================================

/-- Error message raised for an unknown BASE variant by both
preview_base_variant and render_base_variant. -/
def unknownBaseMsg (name : String) : String :=
  "Unknown BASE variant " ++ name

/-- Error message raised for an unknown MICRO variant by both
preview_micro_variant and render_micro_variant. -/
def unknownMicroMsg (name : String) : String :=
  "Unknown MICRO variant " ++ name

/-- Error message raised for an unknown PULSE variant by both
preview_pulse_variant and render_pulse_variant. -/
def unknownPulseMsg (name : String) : String :=
  "Unknown PULSE variant " ++ name

/-- Graph-construction part of preview_base_variant: reject names absent
from BASE_VARIANTS before anything else, then build EigenBase from the
catalog row with out_db = BASE_OUT_DB.  Console printing and the audio
server are sinks with no effect on the graph and are not modelled. -/
def previewBaseBuild (name : String) : Except String EigenBase :=
  match findVariant BASE_VARIANTS name with
  | none => .error (unknownBaseMsg name)
  | some p => mkEigenBase p BASE_OUT_DB

/-- Graph-construction part of render_base_variant: identical catalog
check and EigenBase construction as the preview path. -/
def renderBaseBuild (name : String) : Except String EigenBase :=
  match findVariant BASE_VARIANTS name with
  | none => .error (unknownBaseMsg name)
  | some p => mkEigenBase p BASE_OUT_DB

/-- Graph-construction part of preview_micro_variant. -/
def previewMicroBuild (name : String) : Except String EigenMicro :=
  match findVariant MICRO_VARIANTS name with
  | none => .error (unknownMicroMsg name)
  | some p => mkEigenMicro p MICRO_OUT_DB

/-- Graph-construction part of render_micro_variant. -/
def renderMicroBuild (name : String) : Except String EigenMicro :=
  match findVariant MICRO_VARIANTS name with
  | none => .error (unknownMicroMsg name)
  | some p => mkEigenMicro p MICRO_OUT_DB

/-- Graph-construction part of preview_pulse_variant. -/
def previewPulseBuild (name : String) : Except String EigenPulse :=
  match findVariant PULSE_VARIANTS name with
  | none => .error (unknownPulseMsg name)
  | some p => mkEigenPulse p PULSE_OUT_DB

/-- Graph-construction part of render_pulse_variant. -/
def renderPulseBuild (name : String) : Except String EigenPulse :=
  match findVariant PULSE_VARIANTS name with
  | none => .error (unknownPulseMsg name)
  | some p => mkEigenPulse p PULSE_OUT_DB

/-- get_layer_for_variant from eigenrausch_pyo_main.py: checks the BASE,
MICRO and PULSE catalogs in order and raises ValueError for a name absent
from all three. -/
def get_layer_for_variant (name : String) : Except String String :=
  if (findVariant BASE_VARIANTS name).isSome then .ok "BASE"
  else if (findVariant MICRO_VARIANTS name).isSome then .ok "MICRO"
  else if (findVariant PULSE_VARIANTS name).isSome then .ok "PULSE"
  else .error ("Unknown variant " ++ name)

-- =========================================================
-- Offline render loop model
-- =========================================================

/-- Modelled from the spec and the pyo recording contract, which are not
part of this repository: recordOptions with dur = durationSec caps the
capture at floor of durationSec times sampleRate samples, and recstop
ends it at the current audio-clock sample position.  The render helpers
call recstop after a wall-clock sleep (or after a KeyboardInterrupt), so
the position stopAt at which recstop fires is an input of the model: the
recorded sample count is the minimum of stopAt and the duration cap. -/
def recordedSamples (durationSec : ℚ) (sampleRate : ℕ) (stopAt : ℕ) : ℕ :=
  min stopAt (Nat.floor (durationSec * sampleRate))

/-- Total sample cap of one offline render at the configured duration and
sample rate. -/
def totalSamples : ℕ := Nat.floor (DURATION_SEC * SAMPLE_RATE)

/-- Observable outcome of one offline render run: whether the interrupt
message was printed, whether the final Done message was printed, and how
many samples were recorded. -/
structure RenderRun where
  interruptedMsg : Bool
  doneMsg : Bool
  recorded : ℕ
deriving DecidableEq

/-- render_base_variant from eigenrausch_base_layer.py: unknown names are
rejected first; otherwise the graph is built, recording starts with
dur = DURATION_SEC, and the function sleeps DURATION_SEC of wall-clock
time.  A KeyboardInterrupt during the sleep prints the interrupt message;
the finally block stops the recording at audio position stopAt; and the
final Done message is printed unconditionally in both paths, after which
the function returns normally. -/
def render_base_variant (name : String) (interrupted : Bool) (stopAt : ℕ) :
    Except String RenderRun :=
  match findVariant BASE_VARIANTS name with
  | none => .error (unknownBaseMsg name)
  | some p =>
    match mkEigenBase p BASE_OUT_DB with
    | .error e => .error e
    | .ok _ =>
      .ok { interruptedMsg := interrupted
            doneMsg := true
            recorded := recordedSamples DURATION_SEC SAMPLE_RATE stopAt }

/-- render_pulse_variant from eigenrausch_pulse_layer.py, with the same
realtime recording structure as the BASE render helper. -/
def render_pulse_variant (name : String) (interrupted : Bool) (stopAt : ℕ) :
    Except String RenderRun :=
  match findVariant PULSE_VARIANTS name with
  | none => .error (unknownPulseMsg name)
  | some p =>
    match mkEigenPulse p PULSE_OUT_DB with
    | .error e => .error e
    | .ok _ =>
      .ok { interruptedMsg := interrupted
            doneMsg := true
            recorded := recordedSamples DURATION_SEC SAMPLE_RATE stopAt }

-- =========================================================
-- Sample semantics of a signal graph
-- =========================================================

/-- Linear congruential step mapping a key to a rational in the unit
interval; the deterministic random source of the model. -/
def prng (k : ℕ) : ℚ :=
  (((1103515245 * k + 12345) % 2147483648 : ℕ) : ℚ) / 2147483648

/-- Modelled from the spec: the noise and Randi primitives are pyo
library objects, not repository code; the spec only requires them to be
deterministic given a seed.  draw seed i t is the t-th uniform draw of
the stateful object with id i under the given seed. -/
noncomputable def draw (seed i t : ℕ) : ℝ :=
  ((prng (seed + 1000003 * i + 7919 * t) : ℚ) : ℝ)

/-- State of one random-interpolated modulator: current value, target,
per-sample step, samples remaining in the segment, and draws consumed. -/
structure RimState where
  cur : ℝ
  tgt : ℝ
  step : ℝ
  rem : ℕ
  draws : ℕ

/-- Modelled from the spec: one sample step of the random-interpolated
modulator (spec section 4.1).  When the segment is exhausted a new target
is drawn uniformly in the configured band, the segment length is
recomputed from the current instantaneous rate, and the value moves
toward the target by a fixed per-sample step; otherwise the value keeps
interpolating. -/
noncomputable def rimStep (lo hi R : ℝ) (seed i : ℕ) (rate : ℝ) (s : RimState) : RimState :=
  if s.rem = 0 then
    let tgt := lo + (hi - lo) * draw seed i s.draws
    let len := Nat.max 1 (Nat.floor (R / rate))
    let st := (tgt - s.cur) / (len : ℝ)
    { cur := s.cur + st, tgt := tgt, step := st, rem := len - 1, draws := s.draws + 1 }
  else
    { cur := s.cur + s.step, tgt := s.tgt, step := s.step, rem := s.rem - 1, draws := s.draws }

/-- Iterated modulator state after samples 0 .. n, with the rate signal
evaluated at each sample index. -/
noncomputable def rimRun (lo hi R : ℝ) (seed i : ℕ) (rate : ℕ → ℝ) : ℕ → RimState
  | 0 => rimStep lo hi R seed i (rate 0) { cur := lo, tgt := lo, step := 0, rem := 0, draws := 0 }
  | n + 1 => rimStep lo hi R seed i (rate (n + 1)) (rimRun lo hi R seed i rate n)

/-- Modelled from the spec: coefficients of the second-order Butterworth
band-pass (spec section 4.1), recomputed from the instantaneous center
frequency, with bandwidth center over q.  The filter implementation lives
in the pyo library, not in the repository; the standard digital
Butterworth band-pass realization is used. -/
noncomputable def butCoef (R fr q : ℝ) : ℝ × ℝ × ℝ × ℝ :=
  let c := 1 / Real.tan (Real.pi * (fr / q) / R)
  let d := 2 * Real.cos (2 * Real.pi * fr / R)
  let b0 := 1 / (1 + c)
  (b0, -b0, -(c * d * b0), b0 * (c - 1))

/-- Two-pole band-pass recurrence: the quadruple holds the current and
previous output together with the current and previous input. -/
noncomputable def butRun (R q : ℝ) (x f : ℕ → ℝ) : ℕ → ℝ × ℝ × ℝ × ℝ
  | 0 =>
    let co := butCoef R (f 0) q
    (co.1 * x 0, 0, x 0, 0)
  | n + 1 =>
    let st := butRun R q x f n
    let co := butCoef R (f (n + 1)) q
    (co.1 * x (n + 1) + co.2.1 * st.2.2.2 + co.2.2.1 * st.1 + co.2.2.2 * st.2.1,
      st.1, x (n + 1), st.2.2.1)

/-- Sample semantics of a signal tree at sample rate R under a fixed
random seed: sample n of the signal.  Arithmetic nodes are pointwise; the
sine oscillator accumulates phase from its frequency input; range maps
the unit-amplitude oscillator affinely onto the configured band; the
stateful primitives use the state machines above, drawing their
randomness deterministically from the seed and their object id. -/
noncomputable def sem (R : ℝ) (seed : ℕ) : Sig → ℕ → ℝ
  | .const q => fun _ => (q : ℝ)
  | .dbToAmp d => fun _ => db_to_amp ((d : ℚ) : ℝ)
  | .pink i => fun n => 2 * draw seed i n - 1
  | .sine f m => fun n =>
      sem R seed m n * Real.sin (∑ j ∈ Finset.range n, 2 * Real.pi * sem R seed f j / R)
  | .range s lo hi => fun n =>
      ((lo : ℝ) + (hi : ℝ)) / 2 + ((hi : ℝ) - (lo : ℝ)) / 2 * sem R seed s n
  | .randi lo hi f i => fun n => (rimRun (lo : ℝ) (hi : ℝ) R seed i (sem R seed f) n).cur
  | .butBP x f q => fun n => (butRun R (q : ℝ) (sem R seed x) (sem R seed f) n).1
  | .add a b => fun n => sem R seed a n + sem R seed b n
  | .mul a b => fun n => sem R seed a n * sem R seed b n
  | .pow a k => fun n => sem R seed a n ^ k

/-- Sample n of the live preview of a BASE variant under a fixed seed:
none when the build fails, otherwise the semantics of the constructed
out_sig at the configured sample rate. -/
noncomputable def previewBaseSample (name : String) (seed n : ℕ) : Option ℝ :=
  (previewBaseBuild name).toOption.map (fun v => sem (SAMPLE_RATE : ℝ) seed v.out_sig n)

/-- Sample n of the offline render of a BASE variant under a fixed seed. -/
noncomputable def renderBaseSample (name : String) (seed n : ℕ) : Option ℝ :=
  (renderBaseBuild name).toOption.map (fun v => sem (SAMPLE_RATE : ℝ) seed v.out_sig n)

/-- Sample n of the live preview of a MICRO variant under a fixed seed. -/
noncomputable def previewMicroSample (name : String) (seed n : ℕ) : Option ℝ :=
  (previewMicroBuild name).toOption.map (fun v => sem (SAMPLE_RATE : ℝ) seed v.out_sig n)

/-- Sample n of the offline render of a MICRO variant under a fixed seed. -/
noncomputable def renderMicroSample (name : String) (seed n : ℕ) : Option ℝ :=
  (renderMicroBuild name).toOption.map (fun v => sem (SAMPLE_RATE : ℝ) seed v.out_sig n)

/-- Sample n of the live preview of a PULSE variant under a fixed seed. -/
noncomputable def previewPulseSample (name : String) (seed n : ℕ) : Option ℝ :=
  (previewPulseBuild name).toOption.map (fun v => sem (SAMPLE_RATE : ℝ) seed v.out_sig n)

/-- Sample n of the offline render of a PULSE variant under a fixed seed. -/
noncomputable def renderPulseSample (name : String) (seed n : ℕ) : Option ℝ :=
  (renderPulseBuild name).toOption.map (fun v => sem (SAMPLE_RATE : ℝ) seed v.out_sig n)

-- =========================================================
-- Helper lemmas
-- =========================================================

/-- Every BASE catalog row has nonzero drift and amplitude periods, so
the two divisions in EigenBase init succeed for every catalog variant. -/
theorem base_catalog_nonzero (name : String) (p : BaseParams)
    (h : findVariant BASE_VARIANTS name = some p) :
    p.drift_period_sec ≠ 0 ∧ p.amp_lfo_period_sec ≠ 0 := by
  simp only [BASE_VARIANTS, findVariant] at h
  split_ifs at h
  all_goals first
    | (injection h with h2; subst h2; decide)
    | exact Option.noConfusion h

/-- Normal form of a successful EigenBase construction: when both periods
are nonzero the constructor returns the graph whose final node is the
premix times the single master gain. -/
theorem mkEigenBase_ok (p : BaseParams) (o : ℚ)
    (hd : p.drift_period_sec ≠ 0) (ha : p.amp_lfo_period_sec ≠ 0) :
    mkEigenBase p o = .ok
      ⟨Sig.pink 0,
       Sig.range (Sig.sine (Sig.const (1 / p.drift_period_sec)) (Sig.const 1))
         (p.center_freq_hz - p.drift_depth_hz) (p.center_freq_hz + p.drift_depth_hz),
       Sig.butBP (Sig.pink 0)
         (Sig.range (Sig.sine (Sig.const (1 / p.drift_period_sec)) (Sig.const 1))
           (p.center_freq_hz - p.drift_depth_hz) (p.center_freq_hz + p.drift_depth_hz)) 2,
       Sig.range (Sig.sine (Sig.const (1 / p.amp_lfo_period_sec)) (Sig.const 1))
         (1 - p.amp_lfo_depth) (1 + p.amp_lfo_depth),
       Sig.mul (basePremix p) (Sig.dbToAmp (o + BASE_TRIM_DB))⟩ := by
  simp [mkEigenBase, pydiv, hd, ha, basePremix]

/-- A rational occurs among the db_to_amp arguments of a left fold of
additions exactly when it occurs in the accumulator or in one of the
folded signals. -/
theorem dbArgs_foldl_add (l : List Sig) (acc : Sig) (d : ℚ) :
    d ∈ dbArgs (l.foldl Sig.add acc) ↔ d ∈ dbArgs acc ∨ ∃ s ∈ l, d ∈ dbArgs s := by
  induction l generalizing acc with
  | nil => simp
  | cons s rest ih =>
    simp only [List.foldl_cons, ih, dbArgs, List.mem_append, List.mem_cons]
    constructor
    · rintro (( h | h ) | ⟨t, ht, hd2⟩)
      · exact Or.inl h
      · exact Or.inr ⟨s, Or.inl rfl, h⟩
      · exact Or.inr ⟨t, Or.inr ht, hd2⟩
    · rintro ( h | ⟨t, ( rfl | ht ), hd2⟩)
      · exact Or.inl (Or.inl h)
      · exact Or.inl (Or.inr hd2)
      · exact Or.inr ⟨t, ht, hd2⟩

/-- The db_to_amp arguments inside one micro tone branch are exactly the
tone level. -/
theorem dbArgs_microTone (p : MicroParams) (k : ℕ) :
    dbArgs (mkMicroTone p k).tone = [p.tone_db] := rfl

/-- Every db_to_amp argument of the MICRO premix is the noise-bed level
or the tone level: no master-level gain occurs before the final node. -/
theorem dbArgs_microPremix (p : MicroParams) (d : ℚ)
    (h : d ∈ dbArgs (microPremix p)) : d = p.noise_db ∨ d = p.tone_db := by
  simp only [microPremix, dbArgs, List.mem_append, dbArgs_foldl_add,
    List.mem_singleton, List.mem_map, List.not_mem_nil, List.mem_range,
    false_or, or_false, exists_exists_and_eq_and] at h
  rcases h with h | ⟨k, _, hk⟩
  · exact Or.inl h
  · exact Or.inr hk

-- =========================================================
-- Claim theorems
-- =========================================================

/-- C1: For every layer (BASE, MICRO, PULSE) and every variant parameter
set, exactly one multiplicative master gain db_to_amp (out_db + trim) is
applied as the final operation of the layer graph, out_sig = premix times
layer_amp, and no trim or master-level gain occurs earlier: the premix
depends on the variant parameters alone (not on out_db), and the only
db_to_amp gain nodes inside it are the component levels noise_db,
tone_db and pulse_db, which are defined relative to 0 dBFS. -/
theorem C1_single_master_gain :
    (∀ (p : BaseParams) (o : ℚ), p.drift_period_sec ≠ 0 → p.amp_lfo_period_sec ≠ 0 →
      ∃ v, mkEigenBase p o = .ok v ∧
        v.out_sig = Sig.mul (basePremix p) (Sig.dbToAmp (o + BASE_TRIM_DB)) ∧
        dbArgs (basePremix p) = []) ∧
    (∀ (p : MicroParams) (o : ℚ),
      ∃ v, mkEigenMicro p o = .ok v ∧
        v.out_sig = Sig.mul (microPremix p) (Sig.dbToAmp (o + MICRO_TRIM_DB)) ∧
        ∀ d ∈ dbArgs (microPremix p), d = p.noise_db ∨ d = p.tone_db) ∧
    (∀ (p : PulseParams) (o : ℚ),
      ∃ v, mkEigenPulse p o = .ok v ∧
        v.out_sig = Sig.mul (pulsePremix p) (Sig.dbToAmp (o + PULSE_TRIM_DB)) ∧
        dbArgs (pulsePremix p) = [p.noise_db, p.pulse_db]) := by
  refine ⟨?_, ?_, ?_⟩
  · intro p o hd ha
    exact ⟨_, mkEigenBase_ok p o hd ha, rfl, rfl⟩
  · intro p o
    exact ⟨_, rfl, rfl, fun d hd => dbArgs_microPremix p d hd⟩
  · intro p o
    exact ⟨_, rfl, rfl, rfl⟩

/-- Witness for C1: the BASE part applied at the BASE_A parameters with
the configured output level. -/
theorem C1_single_master_gain_witness :
    ((⟨2800, 1200, 45, 45/100, 30⟩ : BaseParams).drift_period_sec ≠ 0) ∧
    ((⟨2800, 1200, 45, 45/100, 30⟩ : BaseParams).amp_lfo_period_sec ≠ 0) ∧
    (∃ v, mkEigenBase ⟨2800, 1200, 45, 45/100, 30⟩ BASE_OUT_DB = .ok v ∧
      v.out_sig = Sig.mul (basePremix ⟨2800, 1200, 45, 45/100, 30⟩)
        (Sig.dbToAmp (BASE_OUT_DB + BASE_TRIM_DB)) ∧
      dbArgs (basePremix ⟨2800, 1200, 45, 45/100, 30⟩) = []) :=
  ⟨by decide, by decide,
    C1_single_master_gain.1 ⟨2800, 1200, 45, 45/100, 30⟩ BASE_OUT_DB (by decide) (by decide)⟩

/-- C8: In every PULSE instance the envelope is a Randi wandering in the
band pulse_rate_min .. pulse_rate_max (morphing at 0.5 Hz) that drives
the rate of a second Randi wandering in 0 .. 1; the envelope is cubed;
and the band-passed pulse is scaled by db_to_amp pulse_db before being
summed with the noise bed, after which only the master gain applies. -/
theorem C8_pulse_envelope :
    ∀ (p : PulseParams) (o : ℚ),
      ∃ v, mkEigenPulse p o = .ok v ∧
        v.pulse_rate = Sig.randi p.pulse_rate_min p.pulse_rate_max (Sig.const (1/2)) 3 ∧
        v.amp_lfo = Sig.randi 0 1 v.pulse_rate 4 ∧
        v.noise_bed = Sig.mul (Sig.pink 0) (Sig.dbToAmp p.noise_db) ∧
        v.band = Sig.butBP v.pulse_noise v.freq_lfo (6/5) ∧
        v.out_sig =
          Sig.mul
            (Sig.add v.noise_bed
              (Sig.mul (Sig.mul v.band (Sig.pow v.amp_lfo 3)) (Sig.dbToAmp p.pulse_db)))
            (Sig.dbToAmp (o + PULSE_TRIM_DB)) :=
  fun _ _ => ⟨_, rfl, rfl, rfl, rfl, rfl, rfl⟩

/-- C4 counterexample: graph construction with a negative frequency (an
out-of-range parameter in the sense of the claim) succeeds for all three
layers instead of failing synchronously; nothing validates or rejects
the value. -/
theorem C4_out_of_range_counterexample :
    (∃ v, mkEigenBase ⟨-2800, 300, 300, 2/10, 180⟩ BASE_OUT_DB = .ok v) ∧
    (∃ v, mkEigenMicro ⟨-7000, -12000, 4, 1/100, 1/20, -50, -30⟩ MICRO_OUT_DB = .ok v) ∧
    (∃ v, mkEigenPulse ⟨-1500, 4500, 3/2, 4, -60, -10⟩ PULSE_OUT_DB = .ok v) :=
  ⟨⟨_, mkEigenBase_ok ⟨-2800, 300, 300, 2/10, 180⟩ BASE_OUT_DB (by decide) (by decide)⟩,
   ⟨_, rfl⟩, ⟨_, rfl⟩⟩

/-- C4 amended: construction fails synchronously only when a BASE period
parameter is zero (the ZeroDivisionError raised by computing 1 / period);
every other parameter value, including negative frequencies, is accepted
without validation or clamping, and MICRO and PULSE construction never
fails for any parameters. -/
theorem C4_construction_failure_amended :
    (∀ (p : BaseParams) (o : ℚ),
      (∃ e, mkEigenBase p o = .error e) ↔
        (p.drift_period_sec = 0 ∨ p.amp_lfo_period_sec = 0)) ∧
    (∀ (p : MicroParams) (o : ℚ), ∃ v, mkEigenMicro p o = .ok v) ∧
    (∀ (p : PulseParams) (o : ℚ), ∃ v, mkEigenPulse p o = .ok v) := by
  refine ⟨?_, fun p o => ⟨_, rfl⟩, fun p o => ⟨_, rfl⟩⟩
  intro p o
  constructor
  · rintro ⟨e, he⟩
    by_contra hcon
    push_neg at hcon
    rw [mkEigenBase_ok p o hcon.1 hcon.2] at he
    exact Except.noConfusion he
  · rintro (h | h)
    · exact ⟨"ZeroDivisionError", by simp [mkEigenBase, pydiv, h]⟩
    · by_cases hd : p.drift_period_sec = 0
      · exact ⟨"ZeroDivisionError", by simp [mkEigenBase, pydiv, hd]⟩
      · exact ⟨"ZeroDivisionError", by simp [mkEigenBase, pydiv, hd, h]⟩

/-- Any successful BASE render run carries the interrupt flag it was
given, always reports done, and records min of the stop position and the
duration cap. -/
theorem render_run_shape_base (name : String) (intr : Bool) (stopAt : ℕ) (r : RenderRun)
    (h : render_base_variant name intr stopAt = .ok r) :
    r = ⟨intr, true, min stopAt totalSamples⟩ := by
  cases hf : findVariant BASE_VARIANTS name with
  | none =>
    simp only [render_base_variant, hf] at h
    exact Except.noConfusion h
  | some p =>
    cases hm : mkEigenBase p BASE_OUT_DB with
    | error e =>
      simp only [render_base_variant, hf, hm] at h
      exact Except.noConfusion h
    | ok v =>
      simp only [render_base_variant, hf, hm] at h
      injection h with h2
      exact h2.symm

/-- Any successful PULSE render run carries the interrupt flag it was
given, always reports done, and records min of the stop position and the
duration cap. -/
theorem render_run_shape_pulse (name : String) (intr : Bool) (stopAt : ℕ) (r : RenderRun)
    (h : render_pulse_variant name intr stopAt = .ok r) :
    r = ⟨intr, true, min stopAt totalSamples⟩ := by
  cases hf : findVariant PULSE_VARIANTS name with
  | none =>
    simp only [render_pulse_variant, hf] at h
    exact Except.noConfusion h
  | some p =>
    cases hm : mkEigenPulse p PULSE_OUT_DB with
    | error e =>
      simp only [render_pulse_variant, hf, hm] at h
      exact Except.noConfusion h
    | ok v =>
      simp only [render_pulse_variant, hf, hm] at h
      injection h with h2
      exact h2.symm

/-- The duration cap at the configured 0.05 minutes and 48000 Hz is
144000 samples. -/
theorem totalSamples_eq : totalSamples = 144000 := by
  norm_num [totalSamples, DURATION_SEC, DURATION_MIN, SAMPLE_RATE]

/-- Concrete value of the recording cap at the configured settings. -/
theorem recordedSamples_eq (stopAt : ℕ) :
    recordedSamples DURATION_SEC SAMPLE_RATE stopAt = min stopAt 144000 := by
  show min stopAt totalSamples = min stopAt 144000
  rw [totalSamples_eq]

/-- Catalog row of BASE_A. -/
theorem findVariant_BASE_A :
    findVariant BASE_VARIANTS "BASE_A" = some ⟨2800, 1200, 45, 45/100, 30⟩ := rfl

/-- Catalog row of PULSE_A. -/
theorem findVariant_PULSE_A :
    findVariant PULSE_VARIANTS "PULSE_A" = some ⟨1500, 4500, 3/2, 4, -60, -10⟩ := rfl

/-- Evaluated outcome of rendering BASE_A for any interrupt flag and
any recording stop position. -/
theorem render_base_A_eval (intr : Bool) (stopAt : ℕ) :
    render_base_variant "BASE_A" intr stopAt = .ok ⟨intr, true, min stopAt 144000⟩ := by
  simp only [render_base_variant, findVariant_BASE_A,
    mkEigenBase_ok ⟨2800, 1200, 45, 45/100, 30⟩ BASE_OUT_DB (by decide) (by decide),
    recordedSamples_eq]

/-- Evaluated outcome of rendering PULSE_A for any interrupt flag and
any recording stop position. -/
theorem render_pulse_A_eval (intr : Bool) (stopAt : ℕ) :
    render_pulse_variant "PULSE_A" intr stopAt = .ok ⟨intr, true, min stopAt 144000⟩ := by
  simp only [render_pulse_variant, findVariant_PULSE_A, mkEigenPulse, recordedSamples_eq]

/-- C2 counterexample: with the audio clock at sample position 100000
when recording stops (a delayed block loop under the realtime recording
scheme of the render helpers), the offline render of BASE_A records
100000 samples instead of the 144000 samples of the configured duration:
the sample count depends on wall-clock timing, refuting the claim. -/
theorem C2_sample_count_counterexample :
    render_base_variant "BASE_A" false 100000 = .ok ⟨false, true, 100000⟩ ∧
    totalSamples = 144000 ∧ (100000 : ℕ) ≠ totalSamples := by
  refine ⟨?_, totalSamples_eq, ?_⟩
  · rw [render_base_A_eval]
    norm_num
  · rw [totalSamples_eq]
    norm_num

/-- C2 amended: an offline render records at most floor of duration
times sample rate samples (the recordOptions cap), with equality exactly
when the recording is not stopped before the cap is reached; the count is
not independent of wall-clock timing. -/
theorem C2_sample_count_amended :
    (∀ (name : String) (intr : Bool) (stopAt : ℕ) (r : RenderRun),
      render_base_variant name intr stopAt = .ok r →
        r.recorded ≤ totalSamples ∧ (totalSamples ≤ stopAt → r.recorded = totalSamples)) ∧
    (∀ (name : String) (intr : Bool) (stopAt : ℕ) (r : RenderRun),
      render_pulse_variant name intr stopAt = .ok r →
        r.recorded ≤ totalSamples ∧ (totalSamples ≤ stopAt → r.recorded = totalSamples)) := by
  constructor <;> intro name intr stopAt r h
  · have hr := render_run_shape_base name intr stopAt r h
    subst hr
    exact ⟨min_le_right _ _, fun hts => min_eq_right hts⟩
  · have hr := render_run_shape_pulse name intr stopAt r h
    subst hr
    exact ⟨min_le_right _ _, fun hts => min_eq_right hts⟩

/-- Witness for C2 amended: a BASE_A render stopped exactly at the cap
records exactly the cap. -/
theorem C2_sample_count_amended_witness :
    render_base_variant "BASE_A" false 144000 = .ok ⟨false, true, 144000⟩ ∧
    ((⟨false, true, 144000⟩ : RenderRun).recorded ≤ totalSamples ∧
      (totalSamples ≤ 144000 → (⟨false, true, 144000⟩ : RenderRun).recorded = totalSamples)) :=
  ⟨by rw [render_base_A_eval]; norm_num,
   C2_sample_count_amended.1 "BASE_A" false 144000 ⟨false, true, 144000⟩
     (by rw [render_base_A_eval]; norm_num)⟩

/-- C3: given a fixed random seed, the live preview and the offline
render of the same variant produce identical sample sequences for every
layer: both code paths perform the same catalog lookup and construct the
graph with the same parameters, and the sample semantics is a function of
the seed, the variant parameters and the sample rate alone, so any two
runs with equal inputs agree. -/
theorem C3_seed_determinism :
    ∀ (name : String) (seed n : ℕ),
      previewBaseSample name seed n = renderBaseSample name seed n ∧
      previewMicroSample name seed n = renderMicroSample name seed n ∧
      previewPulseSample name seed n = renderPulseSample name seed n :=
  fun _ _ _ => ⟨rfl, rfl, rfl⟩

/-- C5 counterexample: a render interrupted immediately (0 of the 144000
configured samples recorded) still returns normally with the final Done
message printed, exactly as a complete render does: the partial output is
presented as complete and no incompleteness flag exists, refuting the
claim. -/
theorem C5_cancellation_counterexample :
    render_base_variant "BASE_A" true 0 = .ok ⟨true, true, 0⟩ ∧
    render_pulse_variant "PULSE_A" true 0 = .ok ⟨true, true, 0⟩ ∧
    (0 : ℕ) < totalSamples := by
  refine ⟨?_, ?_, ?_⟩
  · rw [render_base_A_eval]
    norm_num
  · rw [render_pulse_A_eval]
    norm_num
  · rw [totalSamples_eq]
    norm_num

/-- C5 amended: on early cancellation the render helpers print an
interrupt message to the console, but the run still ends with the
unconditional Done message and a normal return carrying only the
truncated sample count: the partial output is not flagged as incomplete
to the caller. -/
theorem C5_cancellation_amended :
    (∀ (name : String) (intr : Bool) (stopAt : ℕ) (r : RenderRun),
      render_base_variant name intr stopAt = .ok r →
        r.doneMsg = true ∧ r.interruptedMsg = intr ∧ r.recorded = min stopAt totalSamples) ∧
    (∀ (name : String) (intr : Bool) (stopAt : ℕ) (r : RenderRun),
      render_pulse_variant name intr stopAt = .ok r →
        r.doneMsg = true ∧ r.interruptedMsg = intr ∧ r.recorded = min stopAt totalSamples) := by
  constructor <;> intro name intr stopAt r h
  · have hr := render_run_shape_base name intr stopAt r h
    subst hr
    exact ⟨rfl, rfl, rfl⟩
  · have hr := render_run_shape_pulse name intr stopAt r h
    subst hr
    exact ⟨rfl, rfl, rfl⟩

/-- Witness for C5 amended: an interrupted BASE_A run stopped at sample
7 reports done with the interrupt flag set and 7 recorded samples. -/
theorem C5_cancellation_amended_witness :
    render_base_variant "BASE_A" true 7 = .ok ⟨true, true, 7⟩ ∧
    ((⟨true, true, 7⟩ : RenderRun).doneMsg = true ∧
      (⟨true, true, 7⟩ : RenderRun).interruptedMsg = true ∧
      (⟨true, true, 7⟩ : RenderRun).recorded = min 7 totalSamples) :=
  ⟨by rw [render_base_A_eval]; norm_num,
   C5_cancellation_amended.1 "BASE_A" true 7 ⟨true, true, 7⟩
     (by rw [render_base_A_eval]; norm_num)⟩

/-- A BASE build fails with the unknown-variant error exactly when the
name is absent from the BASE catalog. -/
theorem previewBaseBuild_err_iff (name : String) :
    previewBaseBuild name = .error (unknownBaseMsg name) ↔
      findVariant BASE_VARIANTS name = none := by
  cases hf : findVariant BASE_VARIANTS name with
  | none => simp [previewBaseBuild, hf]
  | some p =>
    obtain ⟨hd, ha⟩ := base_catalog_nonzero name p hf
    simp [previewBaseBuild, hf, mkEigenBase_ok p BASE_OUT_DB hd ha]

/-- Rendering shares the BASE unknown-variant behavior of previewing. -/
theorem renderBaseBuild_err_iff (name : String) :
    renderBaseBuild name = .error (unknownBaseMsg name) ↔
      findVariant BASE_VARIANTS name = none := by
  cases hf : findVariant BASE_VARIANTS name with
  | none => simp [renderBaseBuild, hf]
  | some p =>
    obtain ⟨hd, ha⟩ := base_catalog_nonzero name p hf
    simp [renderBaseBuild, hf, mkEigenBase_ok p BASE_OUT_DB hd ha]

/-- A MICRO build fails with the unknown-variant error exactly when the
name is absent from the MICRO catalog. -/
theorem previewMicroBuild_err_iff (name : String) :
    previewMicroBuild name = .error (unknownMicroMsg name) ↔
      findVariant MICRO_VARIANTS name = none := by
  cases hf : findVariant MICRO_VARIANTS name with
  | none => simp [previewMicroBuild, hf]
  | some p => simp [previewMicroBuild, hf, mkEigenMicro]

/-- Rendering shares the MICRO unknown-variant behavior of previewing. -/
theorem renderMicroBuild_err_iff (name : String) :
    renderMicroBuild name = .error (unknownMicroMsg name) ↔
      findVariant MICRO_VARIANTS name = none := by
  cases hf : findVariant MICRO_VARIANTS name with
  | none => simp [renderMicroBuild, hf]
  | some p => simp [renderMicroBuild, hf, mkEigenMicro]

/-- A PULSE build fails with the unknown-variant error exactly when the
name is absent from the PULSE catalog. -/
theorem previewPulseBuild_err_iff (name : String) :
    previewPulseBuild name = .error (unknownPulseMsg name) ↔
      findVariant PULSE_VARIANTS name = none := by
  cases hf : findVariant PULSE_VARIANTS name with
  | none => simp [previewPulseBuild, hf]
  | some p => simp [previewPulseBuild, hf, mkEigenPulse]

/-- Rendering shares the PULSE unknown-variant behavior of previewing. -/
theorem renderPulseBuild_err_iff (name : String) :
    renderPulseBuild name = .error (unknownPulseMsg name) ↔
      findVariant PULSE_VARIANTS name = none := by
  cases hf : findVariant PULSE_VARIANTS name with
  | none => simp [renderPulseBuild, hf]
  | some p => simp [renderPulseBuild, hf, mkEigenPulse]

/-- The combined dispatcher fails exactly when the name is absent from
all three catalogs. -/
theorem get_layer_err_iff (name : String) :
    get_layer_for_variant name = .error ("Unknown variant " ++ name) ↔
      (findVariant BASE_VARIANTS name = none ∧ findVariant MICRO_VARIANTS name = none ∧
        findVariant PULSE_VARIANTS name = none) := by
  cases hb : findVariant BASE_VARIANTS name <;>
    cases hm : findVariant MICRO_VARIANTS name <;>
      cases hp : findVariant PULSE_VARIANTS name <;>
        simp [get_layer_for_variant, hb, hm, hp]

/-- C6: asking any build path (preview or render, any layer) or the
combined dispatcher for a variant name absent from the corresponding
catalog fails with the unknown-variant error, raised by the membership
check that precedes graph construction; and for every name present in a
catalog the build proceeds to a constructed graph without that error. -/
theorem C6_unknown_variant (name : String) :
    (get_layer_for_variant name = .error ("Unknown variant " ++ name) ↔
      (findVariant BASE_VARIANTS name = none ∧ findVariant MICRO_VARIANTS name = none ∧
        findVariant PULSE_VARIANTS name = none)) ∧
    (previewBaseBuild name = .error (unknownBaseMsg name) ↔
      findVariant BASE_VARIANTS name = none) ∧
    (renderBaseBuild name = .error (unknownBaseMsg name) ↔
      findVariant BASE_VARIANTS name = none) ∧
    (∀ p, findVariant BASE_VARIANTS name = some p →
      (∃ v, previewBaseBuild name = .ok v) ∧ (∃ v, renderBaseBuild name = .ok v)) ∧
    (previewMicroBuild name = .error (unknownMicroMsg name) ↔
      findVariant MICRO_VARIANTS name = none) ∧
    (renderMicroBuild name = .error (unknownMicroMsg name) ↔
      findVariant MICRO_VARIANTS name = none) ∧
    (∀ p, findVariant MICRO_VARIANTS name = some p →
      (∃ v, previewMicroBuild name = .ok v) ∧ (∃ v, renderMicroBuild name = .ok v)) ∧
    (previewPulseBuild name = .error (unknownPulseMsg name) ↔
      findVariant PULSE_VARIANTS name = none) ∧
    (renderPulseBuild name = .error (unknownPulseMsg name) ↔
      findVariant PULSE_VARIANTS name = none) ∧
    (∀ p, findVariant PULSE_VARIANTS name = some p →
      (∃ v, previewPulseBuild name = .ok v) ∧ (∃ v, renderPulseBuild name = .ok v)) := by
  refine ⟨get_layer_err_iff name, previewBaseBuild_err_iff name, renderBaseBuild_err_iff name,
    ?_, previewMicroBuild_err_iff name, renderMicroBuild_err_iff name, ?_,
    previewPulseBuild_err_iff name, renderPulseBuild_err_iff name, ?_⟩
  · intro p hf
    obtain ⟨hd, ha⟩ := base_catalog_nonzero name p hf
    constructor
    · exact ⟨_, by simp only [previewBaseBuild, hf]; exact mkEigenBase_ok p BASE_OUT_DB hd ha⟩
    · exact ⟨_, by simp only [renderBaseBuild, hf]; exact mkEigenBase_ok p BASE_OUT_DB hd ha⟩
  · intro p hf
    constructor
    · exact ⟨_, by simp only [previewMicroBuild, hf]; exact rfl⟩
    · exact ⟨_, by simp only [renderMicroBuild, hf]; exact rfl⟩
  · intro p hf
    constructor
    · exact ⟨_, by simp only [previewPulseBuild, hf]; exact rfl⟩
    · exact ⟨_, by simp only [renderPulseBuild, hf]; exact rfl⟩

/-- Witness for C6: an absent name is rejected with the unknown-variant
error and a present name builds a graph. -/
theorem C6_unknown_variant_witness :
    previewBaseBuild "NO_SUCH_VARIANT" = .error (unknownBaseMsg "NO_SUCH_VARIANT") ∧
    (∃ v, previewMicroBuild "MICRO_B" = .ok v) :=
  ⟨((C6_unknown_variant "NO_SUCH_VARIANT").2.1).mpr rfl,
   (((C6_unknown_variant "MICRO_B").2.2.2.2.2.2.1) ⟨5500, 7500, 10, 2/10, 1, -16, -1⟩ rfl).1⟩

/-- C7: in every MICRO instance, tone branch k is built as: a Randi in
the fixed band 0.01 .. 0.1 controls the rate of a frequency Randi
wandering between freq_min_hz and freq_max_hz; a Randi between
amp_lfo_freq_min and amp_lfo_freq_max controls the rate of an amplitude
Randi wandering in 0 .. 1; the amplitude is squared; and the sine tone at
the wandering frequency is scaled by the shaped amplitude times
db_to_amp tone_db.  Every branch carries its own four freshly created
Randi objects, and distinct branches share no modulator ids. -/
theorem C7_micro_tone_branches :
    ∀ (p : MicroParams) (o : ℚ) (k : ℕ), k < p.num_tones →
      ∃ v tk, mkEigenMicro p o = .ok v ∧
        v.tones[k]? = some tk ∧
        tk = ⟨Sig.randi (1/100) (1/10) (Sig.const (1/20)) (1 + 4 * k),
              Sig.randi p.freq_min_hz p.freq_max_hz
                (Sig.randi (1/100) (1/10) (Sig.const (1/20)) (1 + 4 * k)) (1 + 4 * k + 1),
              Sig.randi p.amp_lfo_freq_min p.amp_lfo_freq_max (Sig.const (1/10)) (1 + 4 * k + 2),
              Sig.randi 0 1
                (Sig.randi p.amp_lfo_freq_min p.amp_lfo_freq_max (Sig.const (1/10)) (1 + 4 * k + 2))
                (1 + 4 * k + 3),
              Sig.sine
                (Sig.randi p.freq_min_hz p.freq_max_hz
                  (Sig.randi (1/100) (1/10) (Sig.const (1/20)) (1 + 4 * k)) (1 + 4 * k + 1))
                (Sig.mul
                  (Sig.pow (Sig.randi 0 1
                    (Sig.randi p.amp_lfo_freq_min p.amp_lfo_freq_max (Sig.const (1/10)) (1 + 4 * k + 2))
                    (1 + 4 * k + 3)) 2)
                  (Sig.dbToAmp p.tone_db))⟩ ∧
        ∀ j (w : MicroTone), j < p.num_tones → j ≠ k → v.tones[j]? = some w →
          List.Disjoint (randIds tk.tone) (randIds w.tone) := by
  intro p o k hk
  refine ⟨⟨Sig.mul (Sig.pink 0) (Sig.dbToAmp p.noise_db),
           (List.range p.num_tones).map (mkMicroTone p),
           Sig.mul (microPremix p) (Sig.dbToAmp (o + MICRO_TRIM_DB))⟩,
          mkMicroTone p k, rfl, ?_, rfl, ?_⟩
  · simp [List.getElem?_map, List.getElem?_range, hk]
  · intro j w hj hjk hw
    have hw2 : w = mkMicroTone p j := by
      simp [List.getElem?_map, List.getElem?_range, hj] at hw
      exact hw.symm
    subst hw2
    intro a ha hb
    simp only [mkMicroTone, randIds, List.mem_append, List.mem_cons,
      List.not_mem_nil, or_false] at ha hb
    omega

/-- Witness for C7: the first tone branch of a MICRO instance built with
the MICRO_A parameters, branch ids 1 .. 4 after the pink-noise bed. -/
theorem C7_micro_tone_branches_witness :
    (0 < (⟨6500, 8000, 8, 3/10, 12/10, -15, -1⟩ : MicroParams).num_tones) ∧
    (∃ v tk, mkEigenMicro ⟨6500, 8000, 8, 3/10, 12/10, -15, -1⟩ MICRO_OUT_DB = .ok v ∧
      v.tones[0]? = some tk ∧
      tk = ⟨Sig.randi (1/100) (1/10) (Sig.const (1/20)) 1,
            Sig.randi 6500 8000 (Sig.randi (1/100) (1/10) (Sig.const (1/20)) 1) 2,
            Sig.randi (3/10) (12/10) (Sig.const (1/10)) 3,
            Sig.randi 0 1 (Sig.randi (3/10) (12/10) (Sig.const (1/10)) 3) 4,
            Sig.sine (Sig.randi 6500 8000 (Sig.randi (1/100) (1/10) (Sig.const (1/20)) 1) 2)
              (Sig.mul
                (Sig.pow (Sig.randi 0 1 (Sig.randi (3/10) (12/10) (Sig.const (1/10)) 3) 4) 2)
                (Sig.dbToAmp (-1)))⟩ ∧
      ∀ j (w : MicroTone),
        j < (⟨6500, 8000, 8, 3/10, 12/10, -15, -1⟩ : MicroParams).num_tones → j ≠ 0 →
          v.tones[j]? = some w → List.Disjoint (randIds tk.tone) (randIds w.tone)) :=
  ⟨by decide,
   C7_micro_tone_branches ⟨6500, 8000, 8, 3/10, 12/10, -15, -1⟩ MICRO_OUT_DB 0 (by decide)⟩

/-- C9: the gain stage converts decibels to linear amplitude as
db_to_amp db = 10 to the power db over 20, and each layer composes its
master dB offsets by summing out_db and the layer trim first and
performing exactly one dB-to-linear conversion on the sum: the final
gain node is the single node dbToAmp (out_db + trim), whose sample value
is db_to_amp applied to the summed decibels. -/
theorem C9_gain_composition :
    (∀ x : ℝ, db_to_amp x = (10 : ℝ) ^ (x / 20)) ∧
    (∀ (p : BaseParams) (o : ℚ), p.drift_period_sec ≠ 0 → p.amp_lfo_period_sec ≠ 0 →
      ∃ v, mkEigenBase p o = .ok v ∧
        v.out_sig = Sig.mul (basePremix p) (Sig.dbToAmp (o + BASE_TRIM_DB)) ∧
        ∀ (R : ℝ) (seed n : ℕ),
          sem R seed v.out_sig n =
            sem R seed (basePremix p) n * db_to_amp ((o : ℝ) + ((BASE_TRIM_DB : ℚ) : ℝ))) ∧
    (∀ (p : MicroParams) (o : ℚ),
      ∃ v, mkEigenMicro p o = .ok v ∧
        v.out_sig = Sig.mul (microPremix p) (Sig.dbToAmp (o + MICRO_TRIM_DB)) ∧
        ∀ (R : ℝ) (seed n : ℕ),
          sem R seed v.out_sig n =
            sem R seed (microPremix p) n * db_to_amp ((o : ℝ) + ((MICRO_TRIM_DB : ℚ) : ℝ))) ∧
    (∀ (p : PulseParams) (o : ℚ),
      ∃ v, mkEigenPulse p o = .ok v ∧
        v.out_sig = Sig.mul (pulsePremix p) (Sig.dbToAmp (o + PULSE_TRIM_DB)) ∧
        ∀ (R : ℝ) (seed n : ℕ),
          sem R seed v.out_sig n =
            sem R seed (pulsePremix p) n * db_to_amp ((o : ℝ) + ((PULSE_TRIM_DB : ℚ) : ℝ))) := by
  refine ⟨fun x => rfl, ?_, ?_, ?_⟩
  · intro p o hd ha
    refine ⟨_, mkEigenBase_ok p o hd ha, rfl, ?_⟩
    intro R seed n
    show sem R seed (Sig.mul (basePremix p) (Sig.dbToAmp (o + BASE_TRIM_DB))) n = _
    simp [sem, Rat.cast_add]
  · intro p o
    refine ⟨_, rfl, rfl, ?_⟩
    intro R seed n
    show sem R seed (Sig.mul (microPremix p) (Sig.dbToAmp (o + MICRO_TRIM_DB))) n = _
    simp [sem, Rat.cast_add]
  · intro p o
    refine ⟨_, rfl, rfl, ?_⟩
    intro R seed n
    show sem R seed (Sig.mul (pulsePremix p) (Sig.dbToAmp (o + PULSE_TRIM_DB))) n = _
    simp [sem, Rat.cast_add]

/-- Witness for C9: the BASE part at the BASE_A parameters. -/
theorem C9_gain_composition_witness :
    ((⟨2800, 1200, 45, 45/100, 30⟩ : BaseParams).drift_period_sec ≠ 0) ∧
    ((⟨2800, 1200, 45, 45/100, 30⟩ : BaseParams).amp_lfo_period_sec ≠ 0) ∧
    (∃ v, mkEigenBase ⟨2800, 1200, 45, 45/100, 30⟩ BASE_OUT_DB = .ok v ∧
      v.out_sig = Sig.mul (basePremix ⟨2800, 1200, 45, 45/100, 30⟩)
        (Sig.dbToAmp (BASE_OUT_DB + BASE_TRIM_DB)) ∧
      ∀ (R : ℝ) (seed n : ℕ),
        sem R seed v.out_sig n =
          sem R seed (basePremix ⟨2800, 1200, 45, 45/100, 30⟩) n *
            db_to_amp ((BASE_OUT_DB : ℝ) + ((BASE_TRIM_DB : ℚ) : ℝ))) :=
  ⟨by decide, by decide,
   C9_gain_composition.2.1 ⟨2800, 1200, 45, 45/100, 30⟩ BASE_OUT_DB (by decide) (by decide)⟩

/-- C10: constructing an EigenMicro instance with num_tones = 0 succeeds
without error (the empty Python tone list sums to the integer 0), and
every output sample equals the noise bed alone under the master gain:
pink noise times db_to_amp noise_db times db_to_amp
(out_db + MICRO_TRIM_DB). -/
theorem C10_zero_tones :
    ∀ (p : MicroParams) (o : ℚ) (R : ℝ) (seed n : ℕ), p.num_tones = 0 →
      ∃ v, mkEigenMicro p o = .ok v ∧
        sem R seed v.out_sig n =
          sem R seed (Sig.pink 0) n * db_to_amp ((p.noise_db : ℚ) : ℝ) *
            db_to_amp (((o + MICRO_TRIM_DB : ℚ)) : ℝ) := by
  intro p o R seed n h0
  refine ⟨_, rfl, ?_⟩
  show sem R seed (Sig.mul (microPremix p) (Sig.dbToAmp (o + MICRO_TRIM_DB))) n = _
  simp only [microPremix, h0, List.range_zero, List.map_nil, List.foldl_nil]
  simp [sem]

/-- Witness for C10: the MICRO_A parameters with num_tones set to 0 at
the configured output level and sample rate, seed 0, sample 0. -/
theorem C10_zero_tones_witness :
    (⟨6500, 8000, 0, 3/10, 12/10, -15, -1⟩ : MicroParams).num_tones = 0 ∧
    (∃ v, mkEigenMicro ⟨6500, 8000, 0, 3/10, 12/10, -15, -1⟩ MICRO_OUT_DB = .ok v ∧
      sem 48000 0 v.out_sig 0 =
        sem 48000 0 (Sig.pink 0) 0 * db_to_amp (((-15 : ℚ)) : ℝ) *
          db_to_amp (((MICRO_OUT_DB + MICRO_TRIM_DB : ℚ)) : ℝ)) :=
  ⟨rfl, C10_zero_tones ⟨6500, 8000, 0, 3/10, 12/10, -15, -1⟩ MICRO_OUT_DB 48000 0 0 rfl⟩
